import Mathlib

/-!
Shallow embedding of the task-state mutation engine of
`scripts/task_manager_phase1.py` and `scripts/task_manager_phase2.py`.

Modelling conventions:
* A task is a record of the JSON keys the two scripts read or write.
  `Option` marks a key that may be absent; `Option (Option String)` marks a
  key that may be absent (`none`), present with JSON `null` (`some none`),
  or present with a string (`some (some s)`), a distinction the source
  makes via `"k" in task` versus `task.get("k")`.
* Timestamps are their ISO-8601 strings; the source compares them with
  Python string comparison (lexicographic), which `String`'s linear order
  models, and appends a literal `"Z"` where the source writes
  `isoformat() + "Z"`.
* Each operation takes the current instant as an explicit argument.  All
  `datetime.now()` calls inside one operation are modelled as that single
  instant.  For `next_recurring`, which adds a `timedelta` of whole days,
  the instant is a function `nowPlus : Nat → String` giving the ISO string
  of the instant advanced by that many days (`nowPlus 0` is "now").
* Operations that print an error and `sys.exit(1)` before saving are
  modelled with `Except String`: the error branch returns the message and,
  because the process exits before `save_data`, no store.
* The phase-2 side effects relevant to the write-ahead-log ordering claims
  are reified as an effect trace: `Effect.wal e` is `log_to_wal(e, …)`,
  `Effect.save` is `save_data(data)`, listed in execution order.
-/

namespace TM

structure Goal where
  id : String
  title : String
  priority : String
deriving DecidableEq, Repr

structure Task where
  id : String
  goal_id : Option String
  title : String
  priority : String
  status : String
  progress : Option Int
  estimate_minutes : Option Int
  actual_minutes : Option Int
  recurring : Option (Option String)
  next_due_at : Option String
  created_at : Option String
  updated_at : Option String
  completed_at : Option String
  blocked_reason : Option (Option String)
  notes : Option String
  last_error : Option String
  retry_count : Option Int
deriving DecidableEq, Repr

structure Store where
  goals : List Goal
  tasks : List Task
deriving DecidableEq, Repr

/-- The empty default store `{"goals": [], "tasks": []}`. -/
def emptyStore : Store := ⟨[], []⟩

/-- Python truthiness of an optional string value (`None` and `""` are falsy). -/
def optStrTruthy : Option String → Bool
  | some s => s != ""
  | none => false

/-- Python truthiness of `task.get("recurring")`: absent and `null` give
`None` (falsy); a present string is truthy iff nonempty. -/
def recurringTruthy : Option (Option String) → Bool
  | some (some s) => s != ""
  | _ => false

/-- Python falsiness of `task.get(key)` for a string-valued key
(`not task.get("completed_at")`). -/
def strFalsy (v : Option String) : Bool := !optStrTruthy v

/-- `find_task_by_id`: first task whose `id` matches, if any. -/
def find_task_by_id (tasks : List Task) (task_id : String) : Option Task :=
  tasks.find? (fun t => t.id == task_id)

/-- `find_goal_by_id` (phase 2) / the inline `next(...)` goal lookup (phase 1). -/
def find_goal_by_id (goals : List Goal) (goal_id : String) : Option Goal :=
  goals.find? (fun g => g.id == goal_id)

/-- Apply `f` to the first task whose `id` matches, leaving the rest alone.
This is how the scripts' in-place mutation of the object returned by
`find_task_by_id` acts on the task list. -/
def updateFirstTask (tasks : List Task) (task_id : String) (f : Task → Task) :
    List Task :=
  match tasks with
  | [] => []
  | t :: ts =>
      if t.id == task_id then f t :: ts else t :: updateFirstTask ts task_id f

/-- The field mutation of phase 1 `mark_progress` on the found task
(source lines 81–88): store the progress and `updated_at`, then the status
transition chain. -/
def progressUpdate1 (progress : Int) (now : String) (t : Task) : Task :=
  let t := { t with progress := some progress, updated_at := some (now ++ "Z") }
  if progress = 100 ∧ t.status = "in_progress" then
    { t with status := "completed", completed_at := some (now ++ "Z") }
  else if progress > 0 ∧ t.status = "pending" then
    { t with status := "in_progress" }
  else t

/-- Phase 1 `mark_progress(task_id, progress)`: task lookup, range check
`0 <= progress <= 100`, mutation, save. -/
def mark_progress1 (data : Store) (task_id : String) (progress : Int)
    (now : String) : Except String Store :=
  match find_task_by_id data.tasks task_id with
  | none => .error ("Task not found: " ++ task_id)
  | some _ =>
      if ¬ (0 ≤ progress ∧ progress ≤ 100) then
        .error "Progress must be 0-100"
      else
        .ok { data with
              tasks := updateFirstTask data.tasks task_id
                (progressUpdate1 progress now) }

/-! ## Phase 2: WAL / save effect traces and the phase-2 mutators -/

/-- One observable file side effect of a phase-2 operation: a
`log_to_wal(event_type, …)` append or a `save_data(data)` store write. -/
inductive Effect where
  | wal (event_type : String)
  | save
deriving DecidableEq, Repr

/-- Result of a phase-2 operation: its side-effect trace in execution
order, and either the saved store or the error message printed before
`sys.exit(1)`. -/
structure OpResult where
  trace : List Effect
  result : Except String Store
deriving Repr

/-- The `notes` handling shared by phase-2 `mark_progress` and `log_time`:
append with a newline when truthy notes already exist, else overwrite. -/
def appendNotes (notes : String) (t : Task) : Task :=
  if notes ≠ "" then
    if optStrTruthy t.notes then
      { t with notes := some (t.notes.getD "" ++ "\n" ++ notes) }
    else
      { t with notes := some notes }
  else t

/-- The field mutation of phase 2 `mark_progress` (source lines 177–190):
no range check; at `progress >= 100` a non-completed task is set to
`in_progress` (never to `completed`). -/
def progressUpdate2 (progress : Int) (notes now : String) (t : Task) : Task :=
  let t := { t with progress := some progress, updated_at := some (now ++ "Z") }
  let t := appendNotes notes t
  if progress ≥ 100 ∧ t.status ≠ "completed" then
    { t with status := "in_progress" }
  else if progress > 0 ∧ t.status = "pending" then
    { t with status := "in_progress" }
  else t

/-- Phase 2 `mark_progress(task_id, progress, notes)`. -/
def mark_progress2 (data : Store) (task_id : String) (progress : Int)
    (notes now : String) : OpResult :=
  match find_task_by_id data.tasks task_id with
  | none => ⟨[], .error ("Task not found: " ++ task_id)⟩
  | some _ =>
      ⟨[.wal "PROGRESS_CHANGE", .save],
       .ok { data with
             tasks := updateFirstTask data.tasks task_id
               (progressUpdate2 progress notes now) }⟩

/-- The field mutation of phase 2 `log_time` on the found task. -/
def timeUpdate2 (minutes : Int) (notes now : String) (t : Task) : Task :=
  let new_actual := t.actual_minutes.getD 0 + minutes
  let t := { t with actual_minutes := some new_actual,
                    updated_at := some (now ++ "Z") }
  let t := appendNotes notes t
  if t.status = "pending" ∧ new_actual > 0 then
    { t with status := "in_progress" }
  else t

/-- Phase 2 `log_time(task_id, minutes, notes)`. -/
def log_time2 (data : Store) (task_id : String) (minutes : Int)
    (notes now : String) : OpResult :=
  match find_task_by_id data.tasks task_id with
  | none => ⟨[], .error ("Task not found: " ++ task_id)⟩
  | some _ =>
      ⟨[.wal "TIME_LOG", .save],
       .ok { data with
             tasks := updateFirstTask data.tasks task_id
               (timeUpdate2 minutes notes now) }⟩

/-- The field mutation shared by phase 1 and phase 2 `mark_blocked`:
unconditionally set `status`, `blocked_reason` and `updated_at`. -/
def blockUpdate (reason now : String) (t : Task) : Task :=
  { t with status := "blocked", blocked_reason := some (some reason),
           updated_at := some (now ++ "Z") }

/-- Phase 1 `mark_blocked(task_id, reason)`. -/
def mark_blocked1 (data : Store) (task_id reason now : String) :
    Except String Store :=
  match find_task_by_id data.tasks task_id with
  | none => .error ("Task not found: " ++ task_id)
  | some _ =>
      .ok { data with
            tasks := updateFirstTask data.tasks task_id (blockUpdate reason now) }

/-- Phase 2 `mark_blocked(task_id, reason)`. -/
def mark_blocked2 (data : Store) (task_id reason now : String) : OpResult :=
  match find_task_by_id data.tasks task_id with
  | none => ⟨[], .error ("Task not found: " ++ task_id)⟩
  | some _ =>
      ⟨[.wal "STATUS_CHANGE", .save],
       .ok { data with
             tasks := updateFirstTask data.tasks task_id
               (blockUpdate reason now) }⟩

/-- `true` iff every `save` in the trace is preceded by an earlier `wal`
append; accumulator records whether a `wal` has been seen. -/
def walSeenBeforeSave : Bool → List Effect → Bool
  | _, [] => true
  | _, .wal _ :: rest => walSeenBeforeSave true rest
  | seen, .save :: rest => seen && walSeenBeforeSave seen rest

/-- The WAL-before-save durability discipline on a trace. -/
def walBeforeSave (trace : List Effect) : Bool := walSeenBeforeSave false trace

/-! ## Phase 2: health check -/

/-- Check 1: orphaned recurring (`recurring` truthy, `goal_id` falsy):
clear `recurring` to `null`. -/
def hcCheck1 (t : Task) : Task × List String × List String :=
  if recurringTruthy t.recurring ∧ ¬ optStrTruthy t.goal_id then
    ({ t with recurring := some none },
     ["Orphaned recurring task: " ++ t.id],
     ["Removed recurring flag from " ++ t.id])
  else (t, [], [])

/-- Check 2: `status == "completed"` but `task.get("progress", 100) < 100`:
set `progress` to 100. -/
def hcCheck2 (t : Task) : Task × List String × List String :=
  if t.status = "completed" ∧ t.progress.getD 100 < 100 then
    ({ t with progress := some 100 },
     ["Impossible state: " ++ t.id ++ " completed but progress<100"],
     ["Set progress=100% for completed task " ++ t.id])
  else (t, [], [])

/-- Check 3: `status == "completed"` but `completed_at` falsy: stamp
`completed_at` with now. -/
def hcCheck3 (now : String) (t : Task) : Task × List String × List String :=
  if t.status = "completed" ∧ strFalsy t.completed_at then
    ({ t with completed_at := some (now ++ "Z") },
     ["Inconsistent completion: " ++ t.id ++ " status=completed but no completed_at"],
     ["Added completed_at timestamp to " ++ t.id])
  else (t, [], [])

/-- Check 4: time anomaly (`actual_minutes > estimate_minutes * 10`, the
estimate defaulting to 1): report only, no fix. -/
def hcCheck4 (t : Task) : Task × List String × List String :=
  if t.actual_minutes.getD 0 > t.estimate_minutes.getD 1 * 10 then
    (t, ["Time anomaly: " ++ t.id], [])
  else (t, [], [])

/-- Check 5: completed task whose `completed_at` (defaulting to `""`)
compares (as a string) greater than the bare `isoformat()` of now: reset
`completed_at` to now. -/
def hcCheck5 (now : String) (t : Task) : Task × List String × List String :=
  if t.status = "completed" ∧ now < t.completed_at.getD "" then
    ({ t with completed_at := some (now ++ "Z") },
     ["Bad date: " ++ t.id ++ " completed_at is in future"],
     ["Reset completed_at for " ++ t.id])
  else (t, [], [])

/-- Run the five checks on one task in source order, each seeing the
mutations of the previous ones, accumulating issues and fixes. -/
def healthTask (now : String) (t : Task) : Task × List String × List String :=
  let r1 := hcCheck1 t
  let r2 := hcCheck2 r1.1
  let r3 := hcCheck3 now r2.1
  let r4 := hcCheck4 r3.1
  let r5 := hcCheck5 now r4.1
  (r5.1, r1.2.1 ++ r2.2.1 ++ r3.2.1 ++ r4.2.1 ++ r5.2.1,
         r1.2.2 ++ r2.2.2 ++ r3.2.2 ++ r4.2.2 ++ r5.2.2)

/-- The scan loop of `health_check` over the task list. -/
def healthScan (now : String) : List Task → List Task × List String × List String
  | [] => ([], [], [])
  | t :: ts =>
      let r := healthTask now t
      let rest := healthScan now ts
      (r.1 :: rest.1, r.2.1 ++ rest.2.1, r.2.2 ++ rest.2.2)

/-- Full result of phase 2 `health_check()`: effect trace, the in-memory
store after the scan, and the issue and fix lists.  The store is saved
only when at least one fix was applied, and the `HEALTH_CHECK` WAL record
is appended *after* that save. -/
structure HealthResult where
  trace : List Effect
  store : Store
  issues : List String
  fixes : List String
deriving Repr

/-- Phase 2 `health_check()`. -/
def health_check2 (data : Store) (now : String) : HealthResult :=
  let r := healthScan now data.tasks
  let store := { data with tasks := r.1 }
  let trace :=
    if r.2.2 ≠ [] then [Effect.save, Effect.wal "HEALTH_CHECK"]
    else [Effect.wal "HEALTH_CHECK"]
  ⟨trace, store, r.2.1, r.2.2⟩

/-! ## Phase 1: recurring rollover -/

/-- The `NotRecurring` guard of `next_recurring`: rejected iff
`task.get("recurring") == "none"` or the key is absent.  A present `null`
value (`some none`) passes. -/
def recurGuardFails (t : Task) : Bool :=
  t.recurring == some (some "none") || t.recurring == none

/-- The day delta of the if/elif chain computing the next due date:
1 for `"daily"`, 7 for `"weekly"` (a `timedelta` of one week), 30 for
`"monthly"`, 0 for anything else (including `null` and
`"after_completion"`). -/
def recurDeltaDays : Option String → Nat
  | some "daily" => 1
  | some "weekly" => 7
  | some "monthly" => 30
  | _ => 0

/-- Marking the current task completed in `next_recurring`. -/
def completeTask (nowZ : String) (t : Task) : Task :=
  { t with status := "completed", completed_at := some nowZ,
           progress := some 100 }

/-- The successor built from a `.copy()` of the (already completed)
task: fresh id, reset progress/status/actual minutes, new `created_at`
and `next_due_at`, with `completed_at`, `last_error`, `retry_count` and
`blocked_reason` popped. -/
def successorTask (newId : String) (nowPlus : Nat → String) (t : Task) : Task :=
  { t with id := newId, status := "pending", progress := some 0,
           created_at := some (nowPlus 0 ++ "Z"), actual_minutes := some 0,
           next_due_at := some (nowPlus (recurDeltaDays (t.recurring.getD none)) ++ "Z"),
           completed_at := none, last_error := none, retry_count := none,
           blocked_reason := none }

/-- Phase 1 `next_recurring(task_id)`.  `nowPlus d` is the `isoformat()`
of the operation instant advanced by `d` days; `newId` is the token the
id generator returns for the successor. -/
def next_recurring (data : Store) (task_id newId : String)
    (nowPlus : Nat → String) : Except String Store :=
  match find_task_by_id data.tasks task_id with
  | none => .error ("Task not found: " ++ task_id)
  | some t =>
      if recurGuardFails t then .error "Task is not recurring"
      else if t.progress.getD 0 < 100 then
        .error "Task must be 100% complete before creating next occurrence"
      else
        let done := completeTask (nowPlus 0 ++ "Z") t
        .ok { data with
              tasks := updateFirstTask data.tasks task_id
                         (completeTask (nowPlus 0 ++ "Z"))
                       ++ [successorTask newId nowPlus done] }

/-! ## Phase 1: velocity report -/

/-- `completed_at.split("T")[0]`: the calendar-date prefix of an ISO
timestamp (the characters before the first `'T'`, the whole string when
no `'T'` occurs). -/
def dateOf (s : String) : String := (s.toList.takeWhile (fun c => c != 'T')).asString

/-- Round half to even (Python `round`'s tie-breaking) to an integer. -/
def roundHalfEven (q : ℚ) : ℤ :=
  let f := ⌊q⌋
  if q - f < 1/2 then f
  else if 1/2 < q - f then f + 1
  else if f % 2 = 0 then f else f + 1

/-- Python `round(q, k)`. -/
def roundTo (k : Nat) (q : ℚ) : ℚ := (roundHalfEven (q * 10 ^ k) : ℚ) / 10 ^ k

/-- The fields of the `show_velocity` output object that the core
computes (counts and the two derived, rounded rates). -/
structure VelocityReport where
  completed : Nat
  remaining : Nat
  days_tracked : Nat
  velocity_tasks_per_day : ℚ
  estimated_days_to_completion : ℚ
deriving DecidableEq, Repr

/-- The body of `show_velocity` once the goal has been resolved: the
completed/remaining partition, the per-day buckets keyed by the date
prefix of `completed_at` (only tasks carrying the key contribute), and
the two derived, rounded rates. -/
def velocityReport (data : Store) (goal_id : String) : VelocityReport :=
  let completed := data.tasks.filter
    (fun t => t.goal_id == some goal_id && t.status == "completed")
  let dayKeys := (completed.filterMap Task.completed_at).map dateOf
  let remaining := data.tasks.filter
    (fun t => t.goal_id == some goal_id && t.status != "completed")
  let velocity : ℚ :=
    if dayKeys ≠ [] then (completed.length : ℚ) / (dayKeys.dedup.length : ℚ)
    else 0
  let days : ℚ :=
    if 0 < velocity then (remaining.length : ℚ) / velocity else 0
  ⟨completed.length, remaining.length, dayKeys.dedup.length,
   roundTo 2 velocity, roundTo 1 days⟩

/-- Phase 1 `show_velocity(goal_id)`. -/
def show_velocity (data : Store) (goal_id : String) :
    Except String VelocityReport :=
  match find_goal_by_id data.goals goal_id with
  | none => .error ("Goal not found: " ++ goal_id)
  | some _ => .ok (velocityReport data goal_id)

/-! ## Store loading -/

/-- The possible shapes of the store blob file, as the loaders
distinguish them: absent, unparseable JSON, parseable but not a dict,
a dict without a `"tasks"` key, or a well-shaped store. -/
inductive Blob where
  | absent
  | unparseable
  | parsedNonDict
  | parsedDictNoTasks
  | parsedStore (s : Store)
deriving DecidableEq, Repr

/-- Phase 1 `load_data()`: every abnormal shape (absent file, JSON decode
error, wrong top-level shape) recovers to the empty default store; a
decode error additionally triggers a best-effort backup copy (a side
effect outside this model). -/
def load_data1 : Blob → Store
  | .absent => emptyStore
  | .unparseable => emptyStore
  | .parsedNonDict => emptyStore
  | .parsedDictNoTasks => emptyStore
  | .parsedStore s => s

/-- What phase 2 `load_data()` hands back to its caller: a store, or the
raw parsed JSON value unvalidated. -/
inductive Load2Result where
  | store (s : Store)
  | rawNonDict
  | rawDictNoTasks
deriving DecidableEq, Repr

/-- Phase 2 `load_data()`: only the absent-file case is handled; a decode
error propagates as an uncaught exception (`.error`), and a parsed blob
is returned as-is with no shape validation. -/
def load_data2 : Blob → Except Unit Load2Result
  | .absent => .ok (.store emptyStore)
  | .unparseable => .error ()
  | .parsedNonDict => .ok .rawNonDict
  | .parsedDictNoTasks => .ok .rawDictNoTasks
  | .parsedStore s => .ok (.store s)

/-! ## Fixtures and helper lemmas -/

/-- A minimal well-formed pending task, used to build concrete stores. -/
def mkTask (id : String) : Task :=
  { id := id, goal_id := some "g1", title := "T", priority := "medium",
    status := "pending", progress := some 0, estimate_minutes := none,
    actual_minutes := none, recurring := none, next_due_at := none,
    created_at := none, updated_at := none, completed_at := none,
    blocked_reason := none, notes := none, last_error := none,
    retry_count := none }

theorem updateFirstTask_length (tasks : List Task) (tid : String)
    (f : Task → Task) :
    (updateFirstTask tasks tid f).length = tasks.length := by
  induction tasks with
  | nil => rfl
  | cons t ts ih => simp only [updateFirstTask]; split <;> simp [ih]

theorem mem_updateFirstTask_of_ne (tasks : List Task) (tid : String)
    (f : Task → Task) (u : Task) (hu : u ∈ tasks) (hne : u.id ≠ tid) :
    u ∈ updateFirstTask tasks tid f := by
  induction tasks with
  | nil => exact absurd hu (List.not_mem_nil u)
  | cons t ts ih =>
      simp only [updateFirstTask]
      rcases List.mem_cons.mp hu with h | h
      · subst h; rw [if_neg (by simp [hne])]; exact List.mem_cons_self u _
      · split
        · exact List.mem_cons_of_mem _ h
        · exact List.mem_cons_of_mem _ (ih h)

theorem find_updateFirstTask (tasks : List Task) (tid : String)
    (f : Task → Task) (hf : ∀ t, (f t).id = t.id) :
    find_task_by_id (updateFirstTask tasks tid f) tid =
      (find_task_by_id tasks tid).map f := by
  induction tasks with
  | nil => rfl
  | cons t ts ih =>
      simp only [updateFirstTask, find_task_by_id]
      by_cases h : t.id = tid
      · rw [if_pos (by simp [h])]
        rw [List.find?_cons_of_pos _ (by simp [hf, h]),
            List.find?_cons_of_pos _ (by simp [h])]
        rfl
      · rw [if_neg (by simp [h])]
        rw [List.find?_cons_of_neg _ (by simp [h]),
            List.find?_cons_of_neg _ (by simp [h])]
        exact ih

theorem appendNotes_fields (n : String) (t : Task) :
    (appendNotes n t).id = t.id ∧ (appendNotes n t).status = t.status ∧
    (appendNotes n t).progress = t.progress ∧
    (appendNotes n t).completed_at = t.completed_at ∧
    (appendNotes n t).actual_minutes = t.actual_minutes ∧
    (appendNotes n t).updated_at = t.updated_at := by
  simp only [appendNotes]; split_ifs <;> exact ⟨rfl, rfl, rfl, rfl, rfl, rfl⟩

theorem progressUpdate1_id (p : Int) (now : String) (t : Task) :
    (progressUpdate1 p now t).id = t.id := by
  simp only [progressUpdate1]; split_ifs <;> rfl

theorem progressUpdate2_id (p : Int) (notes now : String) (t : Task) :
    (progressUpdate2 p notes now t).id = t.id := by
  simp only [progressUpdate2]
  split_ifs <;>
    simp [(appendNotes_fields notes _).1]

theorem timeUpdate2_id (m : Int) (notes now : String) (t : Task) :
    (timeUpdate2 m notes now t).id = t.id := by
  simp only [timeUpdate2]
  split_ifs <;>
    simp [(appendNotes_fields notes _).1]

theorem blockUpdate_id (reason now : String) (t : Task) :
    (blockUpdate reason now t).id = t.id := rfl

theorem completeTask_id (nowZ : String) (t : Task) :
    (completeTask nowZ t).id = t.id := rfl

theorem append_Z_ne_empty (s : String) : s ++ "Z" ≠ "" := by
  intro h
  have hlen := congrArg String.length h
  simp [String.length_append] at hlen
  exact absurd hlen.2 (by decide)

theorem optStrTruthy_appendZ (s : String) :
    optStrTruthy (some (s ++ "Z")) = true := by
  simp [optStrTruthy, append_Z_ne_empty s]

/-- A goal and a single pending task: fixture store. -/
def storePend : Store := ⟨[⟨"g1", "G", "high"⟩], [mkTask "t1"]⟩

/-- Fixture store whose task is `in_progress`. -/
def storeInProg : Store :=
  ⟨[⟨"g1", "G", "high"⟩], [{ mkTask "t1" with status := "in_progress" }]⟩

/-- A completed task with its completion timestamp. -/
def taskDone : Task :=
  { mkTask "t1" with
      status := "completed"
      progress := some 100
      completed_at := some "2025-12-31T10:00:00+00:00Z" }

/-- Fixture store with one completed task. -/
def storeDone : Store := ⟨[⟨"g1", "G", "high"⟩], [taskDone]⟩

/-! ## Claim C1 -/

/-- C1 counterexample: the claim says `SetProgress(task, 100)` on a
`pending` task leaves the status unchanged (still `pending`); on the
concrete pending task the phase-1 code sets it to `in_progress` (the
`progress > 0` elif fires).  Moreover the phase-2 code, on an
`in_progress` task at 100, yields `in_progress`, not `completed`. -/
theorem C1_counterexample :
    ((mark_progress1 storePend "t1" 100 "2026-01-01T00:00:00+00:00").map
        (fun s => s.tasks.map Task.status) = .ok ["in_progress"]) ∧
    "in_progress" ≠ "pending" ∧
    ((mark_progress2 storeInProg "t1" 100 "" "2026-01-01T00:00:00+00:00").result.map
        (fun s => s.tasks.map Task.status) = .ok ["in_progress"]) ∧
    "in_progress" ≠ "completed" :=
  ⟨rfl, by decide, rfl, by decide⟩

/-- C1 amended: phase 1 `mark_progress(task, 100)` on an `in_progress`
task yields `completed` with `completed_at` set, and on a `pending` task
yields `progress = 100` with status `in_progress` (not unchanged);
phase 2 `mark_progress(task, 100)` on any non-completed task yields
`in_progress` and never touches `completed_at`. -/
theorem C1_set_progress_100 (data : Store) (tid now notes : String) (t : Task)
    (hfind : find_task_by_id data.tasks tid = some t) :
    (t.status = "in_progress" →
       ∃ s, mark_progress1 data tid 100 now = .ok s ∧
         ∃ t', find_task_by_id s.tasks tid = some t' ∧
           t'.status = "completed" ∧ t'.completed_at = some (now ++ "Z") ∧
           t'.progress = some 100) ∧
    (t.status = "pending" →
       ∃ s, mark_progress1 data tid 100 now = .ok s ∧
         ∃ t', find_task_by_id s.tasks tid = some t' ∧
           t'.status = "in_progress" ∧ t'.progress = some 100) ∧
    (t.status ≠ "completed" →
       ∃ s, (mark_progress2 data tid 100 notes now).result = .ok s ∧
         ∃ t', find_task_by_id s.tasks tid = some t' ∧
           t'.status = "in_progress" ∧ t'.progress = some 100 ∧
           t'.completed_at = t.completed_at) := by
  have hok : mark_progress1 data tid 100 now =
      .ok { data with
            tasks := updateFirstTask data.tasks tid (progressUpdate1 100 now) } := by
    simp [mark_progress1, hfind]
  have hok2 : (mark_progress2 data tid 100 notes now).result =
      .ok { data with
            tasks := updateFirstTask data.tasks tid (progressUpdate2 100 notes now) } := by
    simp [mark_progress2, hfind]
  have hfind1 :
      find_task_by_id (updateFirstTask data.tasks tid (progressUpdate1 100 now)) tid
        = some (progressUpdate1 100 now t) := by
    rw [find_updateFirstTask _ _ _ (progressUpdate1_id 100 now), hfind, Option.map_some']
  have hfind2 :
      find_task_by_id
        (updateFirstTask data.tasks tid (progressUpdate2 100 notes now)) tid
        = some (progressUpdate2 100 notes now t) := by
    rw [find_updateFirstTask _ _ _ (progressUpdate2_id 100 notes now), hfind,
        Option.map_some']
  obtain ⟨hid, hst, hpr, hca, hact, hupd⟩ :=
    appendNotes_fields notes
      { t with progress := some (100 : Int), updated_at := some (now ++ "Z") }
  refine ⟨fun h => ⟨_, hok, progressUpdate1 100 now t, hfind1, ?_⟩,
          fun h => ⟨_, hok, progressUpdate1 100 now t, hfind1, ?_⟩,
          fun h => ⟨_, hok2, progressUpdate2 100 notes now t, hfind2, ?_⟩⟩
  · simp [progressUpdate1, h]
  · simp only [progressUpdate1]
    rw [if_neg (by simp [h]), if_pos (by simp [h])]
    exact ⟨rfl, rfl⟩
  · have hcond : (100 : Int) ≥ 100 ∧
        (appendNotes notes
          { t with progress := some (100 : Int),
                   updated_at := some (now ++ "Z") }).status ≠ "completed" :=
      ⟨le_refl _, by rw [hst]; exact h⟩
    simp only [progressUpdate2]
    rw [if_pos hcond]
    exact ⟨rfl, by simpa using hpr, by simpa using hca⟩

/-- C1 witness: the theorem applied to the concrete `in_progress` store. -/
theorem C1_witness :
    (find_task_by_id storeInProg.tasks "t1"
        = some { mkTask "t1" with status := "in_progress" }) ∧
    ((({ mkTask "t1" with status := "in_progress" } : Task).status = "in_progress" →
       ∃ s, mark_progress1 storeInProg "t1" 100 "2026-01-01T00:00:00+00:00" = .ok s ∧
         ∃ t', find_task_by_id s.tasks "t1" = some t' ∧
           t'.status = "completed" ∧
           t'.completed_at = some ("2026-01-01T00:00:00+00:00" ++ "Z") ∧
           t'.progress = some 100) ∧
     (({ mkTask "t1" with status := "in_progress" } : Task).status = "pending" →
       ∃ s, mark_progress1 storeInProg "t1" 100 "2026-01-01T00:00:00+00:00" = .ok s ∧
         ∃ t', find_task_by_id s.tasks "t1" = some t' ∧
           t'.status = "in_progress" ∧ t'.progress = some 100) ∧
     (({ mkTask "t1" with status := "in_progress" } : Task).status ≠ "completed" →
       ∃ s, (mark_progress2 storeInProg "t1" 100 "" "2026-01-01T00:00:00+00:00").result = .ok s ∧
         ∃ t', find_task_by_id s.tasks "t1" = some t' ∧
           t'.status = "in_progress" ∧ t'.progress = some 100 ∧
           t'.completed_at = ({ mkTask "t1" with status := "in_progress" } : Task).completed_at)) :=
  ⟨rfl, C1_set_progress_100 storeInProg "t1" "2026-01-01T00:00:00+00:00" ""
     { mkTask "t1" with status := "in_progress" } rfl⟩

/-! ## Claim C3 -/

/-- C3 counterexample: phase 2 `mark_progress` has no range check; with
`progress = 150` on an existing task it succeeds and stores 150, so the
claim that every out-of-range progress is rejected without mutating the
store is false on the phase-2 code. -/
theorem C3_counterexample :
    ((150 : Int) > 100) ∧
    ((mark_progress2 storePend "t1" 150 "" "2026-01-01T00:00:00+00:00").result.map
        (fun s => s.tasks.map Task.progress) = .ok [some 150]) :=
  ⟨by decide, rfl⟩

/-- C3 amended: phase 1 `mark_progress` rejects every out-of-range
integer with the `InvalidArgument` error and produces no store (the
process exits before any mutation or save); phase 2 `mark_progress`
performs no range validation and stores the given value as-is. -/
theorem C3_progress_range (data : Store) (tid now notes : String) (p : Int)
    (t : Task) (hfind : find_task_by_id data.tasks tid = some t)
    (hp : p < 0 ∨ 100 < p) :
    mark_progress1 data tid p now = .error "Progress must be 0-100" ∧
    ∃ s, (mark_progress2 data tid p notes now).result = .ok s ∧
      ∃ t', find_task_by_id s.tasks tid = some t' ∧ t'.progress = some p := by
  constructor
  · have hrange : ¬ (0 ≤ p ∧ p ≤ 100) := by omega
    simp [mark_progress1, hfind, hrange]
  · have hok2 : (mark_progress2 data tid p notes now).result =
        .ok { data with
              tasks := updateFirstTask data.tasks tid (progressUpdate2 p notes now) } := by
      simp [mark_progress2, hfind]
    refine ⟨_, hok2, progressUpdate2 p notes now t, ?_, ?_⟩
    · rw [find_updateFirstTask _ _ _ (progressUpdate2_id p notes now), hfind,
          Option.map_some']
    · obtain ⟨hid, hst, hpr, hca, hact, hupd⟩ :=
        appendNotes_fields notes
          { t with progress := some p, updated_at := some (now ++ "Z") }
      simp only [progressUpdate2]
      split_ifs <;> simpa using hpr

/-- C3 witness: the theorem applied at `progress = 150` on the concrete
pending store. -/
theorem C3_witness :
    ((150 : Int) < 0 ∨ (100 : Int) < 150) ∧
    (mark_progress1 storePend "t1" 150 "2026-01-01T00:00:00+00:00"
        = .error "Progress must be 0-100" ∧
     ∃ s, (mark_progress2 storePend "t1" 150 "" "2026-01-01T00:00:00+00:00").result
            = .ok s ∧
       ∃ t', find_task_by_id s.tasks "t1" = some t' ∧ t'.progress = some 150) :=
  ⟨Or.inr (by decide),
   C3_progress_range storePend "t1" "2026-01-01T00:00:00+00:00" "" 150
     (mkTask "t1") rfl (Or.inr (by decide))⟩

/-! ## Claim C10 -/

/-- C10: `mark_blocked` (both phases) succeeds for every present task
regardless of its current status, setting `status = "blocked"` and
`blocked_reason = reason`, touching only `updated_at` besides those two
fields (the `{ t with … }` right-hand side fixes every other field to its
old value); both phases save the identical store. -/
theorem C10_mark_blocked (data : Store) (tid reason now : String) (t : Task)
    (hfind : find_task_by_id data.tasks tid = some t) :
    ∃ s₁, mark_blocked1 data tid reason now = .ok s₁ ∧
      (mark_blocked2 data tid reason now).result = .ok s₁ ∧
      (mark_blocked2 data tid reason now).trace = [.wal "STATUS_CHANGE", .save] ∧
      find_task_by_id s₁.tasks tid =
        some { t with status := "blocked",
                      blocked_reason := some (some reason),
                      updated_at := some (now ++ "Z") } ∧
      s₁.goals = data.goals ∧ s₁.tasks.length = data.tasks.length := by
  have h1 : mark_blocked1 data tid reason now =
      .ok { data with
            tasks := updateFirstTask data.tasks tid (blockUpdate reason now) } := by
    simp [mark_blocked1, hfind]
  have h2 : (mark_blocked2 data tid reason now).result =
      .ok { data with
            tasks := updateFirstTask data.tasks tid (blockUpdate reason now) } := by
    simp [mark_blocked2, hfind]
  have h3 : (mark_blocked2 data tid reason now).trace
      = [.wal "STATUS_CHANGE", .save] := by
    simp [mark_blocked2, hfind]
  refine ⟨_, h1, h2, h3, ?_, rfl, updateFirstTask_length _ _ _⟩
  show find_task_by_id (updateFirstTask data.tasks tid (blockUpdate reason now)) tid
      = _
  rw [find_updateFirstTask _ _ _ (blockUpdate_id reason now), hfind,
      Option.map_some']
  rfl

/-- C10 witness: the theorem applied to a store whose only task is
already `completed`; the blocked task keeps `progress = 100` and its
`completed_at`. -/
theorem C10_witness :
    (find_task_by_id storeDone.tasks "t1" = some taskDone) ∧
    (∃ s₁, mark_blocked1 storeDone "t1" "waiting on API" "2026-01-02T00:00:00+00:00"
             = .ok s₁ ∧
      (mark_blocked2 storeDone "t1" "waiting on API" "2026-01-02T00:00:00+00:00").result
        = .ok s₁ ∧
      (mark_blocked2 storeDone "t1" "waiting on API" "2026-01-02T00:00:00+00:00").trace
        = [.wal "STATUS_CHANGE", .save] ∧
      find_task_by_id s₁.tasks "t1" =
        some { taskDone with status := "blocked",
                             blocked_reason := some (some "waiting on API"),
                             updated_at := some ("2026-01-02T00:00:00+00:00" ++ "Z") } ∧
      s₁.goals = storeDone.goals ∧ s₁.tasks.length = storeDone.tasks.length) ∧
    taskDone.progress = some 100 ∧
    taskDone.completed_at = some "2025-12-31T10:00:00+00:00Z" :=
  ⟨rfl,
   C10_mark_blocked storeDone "t1" "waiting on API" "2026-01-02T00:00:00+00:00"
     taskDone rfl,
   rfl, rfl⟩

/-! ## Claim C2 -/

/-- A completed task with `progress = 40` and no `completed_at`: the
health scanner applies fixes to it. -/
def taskBroken : Task :=
  { mkTask "t2" with
      status := "completed"
      progress := some 40 }

/-- Fixture store containing a task the health scanner must fix. -/
def storeBroken : Store := ⟨[⟨"g1", "G", "high"⟩], [taskBroken]⟩

/-- The instant used by the concrete fixtures. -/
def now0 : String := "2026-01-01T00:00:00+00:00"

/-- C2 evaluated on the failing input: on a store with a fixable issue,
`health_check` runs `save_data` *before* its `HEALTH_CHECK` WAL append, so
its trace is `[save, wal]` and violates the WAL-before-save discipline −
while the three phase-2 task mutators do emit the WAL append first. -/
theorem C2_code_evaluation :
    (health_check2 storeBroken now0).fixes ≠ [] ∧
    (health_check2 storeBroken now0).trace
      = [Effect.save, Effect.wal "HEALTH_CHECK"] ∧
    walBeforeSave (health_check2 storeBroken now0).trace = false ∧
    (mark_progress2 storeBroken "t2" 50 "" now0).trace
      = [Effect.wal "PROGRESS_CHANGE", Effect.save] ∧
    walBeforeSave (mark_progress2 storeBroken "t2" 50 "" now0).trace = true ∧
    walBeforeSave (log_time2 storeBroken "t2" 10 "" now0).trace = true ∧
    walBeforeSave (mark_blocked2 storeBroken "t2" "r" now0).trace = true := by
  refine ⟨?_, rfl, rfl, rfl, rfl, rfl, rfl⟩
  decide

/-! ## Claim C6 -/

/-- C6 counterexample: phase 2 `load_data` does not validate the parsed
blob − a non-mapping blob is returned raw, not replaced by the empty
default, and an unparseable blob raises (fatal to the caller). -/
theorem C6_counterexample :
    load_data2 .parsedNonDict = .ok .rawNonDict ∧
    Load2Result.rawNonDict ≠ .store emptyStore ∧
    load_data2 .unparseable = .error () := by
  refine ⟨rfl, ?_, rfl⟩
  decide

/-- C6 amended: phase 1 `load_data` returns the empty default store for
every structurally malformed or absent blob and never fails; phase 2
`load_data` recovers only the absent-file case. -/
theorem C6_load_recovery :
    (∀ b : Blob, b ≠ .absent → (∀ s, b ≠ .parsedStore s) →
       load_data1 b = emptyStore) ∧
    load_data1 .absent = emptyStore ∧
    (∀ s, load_data1 (.parsedStore s) = s) ∧
    load_data2 .absent = .ok (.store emptyStore) := by
  refine ⟨?_, rfl, fun s => rfl, rfl⟩
  intro b h1 h2
  cases b
  · exact absurd rfl h1
  · rfl
  · rfl
  · rfl
  · exact absurd rfl (h2 _)

/-- C6 witness: the theorem applied to the blob that parses to a
non-mapping value. -/
theorem C6_witness :
    (Blob.parsedNonDict ≠ .absent) ∧
    (∀ s, Blob.parsedNonDict ≠ .parsedStore s) ∧
    load_data1 .parsedNonDict = emptyStore :=
  ⟨by decide, fun s h => Blob.noConfusion h,
   C6_load_recovery.1 .parsedNonDict (by decide) (fun s h => Blob.noConfusion h)⟩

/-! ## Claims C4, C7, C9: recurring rollover -/

theorem find_task_append (l₁ l₂ : List Task) (tid : String) (t : Task)
    (h : find_task_by_id l₁ tid = some t) :
    find_task_by_id (l₁ ++ l₂) tid = some t := by
  induction l₁ with
  | nil => simp [find_task_by_id] at h
  | cons a l ih =>
      simp only [find_task_by_id, List.cons_append] at h ⊢
      by_cases ha : (a.id == tid) = true
      · rw [List.find?_cons_of_pos l ha] at h
        rw [List.find?_cons_of_pos (l ++ l₂) ha]
        exact h
      · rw [List.find?_cons_of_neg l ha] at h
        rw [List.find?_cons_of_neg (l ++ l₂) ha]
        exact ih h

theorem recurDeltaDays_other (r : Option String) (h1 : r ≠ some "daily")
    (h2 : r ≠ some "weekly") (h3 : r ≠ some "monthly") :
    recurDeltaDays r = 0 := by
  rw [recurDeltaDays.eq_def]
  split <;> simp_all

/-- The `.ok` shape of an accepted `next_recurring` call. -/
theorem next_recurring_ok (data : Store) (tid newId : String)
    (nowPlus : Nat → String) (t : Task)
    (hfind : find_task_by_id data.tasks tid = some t)
    (hrec : recurGuardFails t = false)
    (hp : ¬ t.progress.getD 0 < 100) :
    next_recurring data tid newId nowPlus =
      .ok { data with
            tasks := updateFirstTask data.tasks tid
                       (completeTask (nowPlus 0 ++ "Z"))
                     ++ [successorTask newId nowPlus
                          (completeTask (nowPlus 0 ++ "Z") t)] } := by
  simp [next_recurring, hfind, hrec, hp]

/-- C4: `next_recurring` rejects any task below 100% progress with the
incomplete-task error (exiting before any mutation), and at 100% appends
exactly one successor (`pending`, `progress 0`, `actual_minutes 0`, the
freshly generated id) while the original becomes `completed` with
`progress 100` and `completed_at` stamped; tasks with other ids are
untouched. -/
theorem C4_advance_recurring (data : Store) (tid newId : String)
    (nowPlus : Nat → String) (t : Task)
    (hfind : find_task_by_id data.tasks tid = some t)
    (hrec : recurGuardFails t = false)
    (hfresh : ∀ u ∈ data.tasks, u.id ≠ newId) :
    (t.progress.getD 0 < 100 →
       next_recurring data tid newId nowPlus =
         .error "Task must be 100% complete before creating next occurrence") ∧
    (t.progress.getD 0 = 100 →
       ∃ s, next_recurring data tid newId nowPlus = .ok s ∧
         s.tasks.length = data.tasks.length + 1 ∧
         (∃ succ, s.tasks.getLast? = some succ ∧ succ.id = newId ∧
            succ.status = "pending" ∧ succ.progress = some 0 ∧
            succ.actual_minutes = some 0 ∧ (∀ u ∈ data.tasks, succ.id ≠ u.id)) ∧
         (∃ t', find_task_by_id s.tasks tid = some t' ∧
            t'.status = "completed" ∧ t'.progress = some 100 ∧
            t'.completed_at = some (nowPlus 0 ++ "Z")) ∧
         (∀ u ∈ data.tasks, u.id ≠ tid → u ∈ s.tasks)) := by
  constructor
  · intro h
    simp [next_recurring, hfind, hrec, h]
  · intro h
    have hp : ¬ t.progress.getD 0 < 100 := by omega
    refine ⟨_, next_recurring_ok data tid newId nowPlus t hfind hrec hp,
            ?_, ?_, ?_, ?_⟩
    · simp [updateFirstTask_length]
    · refine ⟨successorTask newId nowPlus (completeTask (nowPlus 0 ++ "Z") t),
              ?_, rfl, rfl, rfl, rfl, ?_⟩
      · show (updateFirstTask data.tasks tid (completeTask (nowPlus 0 ++ "Z"))
              ++ [successorTask newId nowPlus
                   (completeTask (nowPlus 0 ++ "Z") t)]).getLast? = _
        rw [List.getLast?_concat]
      · intro u hu
        exact fun e => hfresh u hu e.symm
    · refine ⟨completeTask (nowPlus 0 ++ "Z") t, ?_, rfl, rfl, rfl⟩
      show find_task_by_id
          (updateFirstTask data.tasks tid (completeTask (nowPlus 0 ++ "Z"))
           ++ [successorTask newId nowPlus
                (completeTask (nowPlus 0 ++ "Z") t)]) tid = _
      refine find_task_append _ _ _ _ ?_
      rw [find_updateFirstTask _ _ _ (completeTask_id _), hfind, Option.map_some']
    · intro u hu hne
      exact List.mem_append_left _ (mem_updateFirstTask_of_ne _ _ _ u hu hne)

/-- A daily recurring task at 100% progress. -/
def taskRec : Task :=
  { mkTask "t1" with
      recurring := some (some "daily")
      status := "in_progress"
      progress := some 100
      actual_minutes := some 30 }

/-- Fixture store with the daily recurring task. -/
def storeRec : Store := ⟨[⟨"g1", "G", "high"⟩], [taskRec]⟩

/-- A concrete stand-in for the serialized instant advanced by `d` days. -/
def nowPlusEx (d : Nat) : String := "2026-01-01T00:00:00+00:00+" ++ toString d

/-- C4 witness: the theorem applied to the concrete daily recurring task
at 100% progress. -/
theorem C4_witness :
    (find_task_by_id storeRec.tasks "t1" = some taskRec) ∧
    (recurGuardFails taskRec = false) ∧
    (∀ u ∈ storeRec.tasks, u.id ≠ "t9") ∧
    ((taskRec.progress.getD 0 < 100 →
       next_recurring storeRec "t1" "t9" nowPlusEx =
         .error "Task must be 100% complete before creating next occurrence") ∧
     (taskRec.progress.getD 0 = 100 →
       ∃ s, next_recurring storeRec "t1" "t9" nowPlusEx = .ok s ∧
         s.tasks.length = storeRec.tasks.length + 1 ∧
         (∃ succ, s.tasks.getLast? = some succ ∧ succ.id = "t9" ∧
            succ.status = "pending" ∧ succ.progress = some 0 ∧
            succ.actual_minutes = some 0 ∧
            (∀ u ∈ storeRec.tasks, succ.id ≠ u.id)) ∧
         (∃ t', find_task_by_id s.tasks "t1" = some t' ∧
            t'.status = "completed" ∧ t'.progress = some 100 ∧
            t'.completed_at = some (nowPlusEx 0 ++ "Z")) ∧
         (∀ u ∈ storeRec.tasks, u.id ≠ "t1" → u ∈ s.tasks))) :=
  ⟨rfl, rfl, by decide,
   C4_advance_recurring storeRec "t1" "t9" nowPlusEx taskRec rfl rfl (by decide)⟩

/-- C7: the accepted rollover stores
`next_due_at = nowPlus (recurDeltaDays r) ++ "Z"` on the successor, where
the day delta is 1 for `"daily"`, 7 for `"weekly"`, 30 for `"monthly"`
and 0 for every other recurrence value (including `"after_completion"`). -/
theorem C7_next_due (data : Store) (tid newId : String) (nowPlus : Nat → String)
    (t : Task) (r : Option String)
    (hfind : find_task_by_id data.tasks tid = some t)
    (hrec : t.recurring = some r) (hr : r ≠ some "none")
    (hp : t.progress.getD 0 = 100) :
    ∃ s, next_recurring data tid newId nowPlus = .ok s ∧
      ∃ succ, s.tasks.getLast? = some succ ∧
        succ.next_due_at = some (nowPlus (recurDeltaDays r) ++ "Z") ∧
        recurDeltaDays (some "daily") = 1 ∧
        recurDeltaDays (some "weekly") = 7 ∧
        recurDeltaDays (some "monthly") = 30 ∧
        recurDeltaDays (some "after_completion") = 0 ∧
        (r ≠ some "daily" → r ≠ some "weekly" → r ≠ some "monthly" →
          recurDeltaDays r = 0) := by
  have hguard : recurGuardFails t = false := by
    simp [recurGuardFails, hrec]
    exact fun h => absurd (by rw [h]) hr
  have hp' : ¬ t.progress.getD 0 < 100 := by omega
  refine ⟨_, next_recurring_ok data tid newId nowPlus t hfind hguard hp',
          successorTask newId nowPlus (completeTask (nowPlus 0 ++ "Z") t), ?_,
          ?_, rfl, rfl, rfl, rfl, recurDeltaDays_other r⟩
  · show (updateFirstTask data.tasks tid (completeTask (nowPlus 0 ++ "Z"))
          ++ [successorTask newId nowPlus
               (completeTask (nowPlus 0 ++ "Z") t)]).getLast? = _
    rw [List.getLast?_concat]
  · show some (nowPlus (recurDeltaDays
        ((completeTask (nowPlus 0 ++ "Z") t).recurring.getD none)) ++ "Z") = _
    have h' : (completeTask (nowPlus 0 ++ "Z") t).recurring = some r := hrec
    rw [h']
    rfl

/-- C7 witness: the theorem applied to the concrete daily task. -/
theorem C7_witness :
    (find_task_by_id storeRec.tasks "t1" = some taskRec) ∧
    (taskRec.recurring = some (some "daily")) ∧
    (some "daily" ≠ some "none") ∧
    (taskRec.progress.getD 0 = 100) ∧
    (∃ s, next_recurring storeRec "t1" "t9" nowPlusEx = .ok s ∧
      ∃ succ, s.tasks.getLast? = some succ ∧
        succ.next_due_at
          = some (nowPlusEx (recurDeltaDays (some "daily")) ++ "Z") ∧
        recurDeltaDays (some "daily") = 1 ∧
        recurDeltaDays (some "weekly") = 7 ∧
        recurDeltaDays (some "monthly") = 30 ∧
        recurDeltaDays (some "after_completion") = 0 ∧
        (some "daily" ≠ some "daily" → some "daily" ≠ some "weekly" →
          some "daily" ≠ some "monthly" →
          recurDeltaDays (some "daily") = 0)) :=
  ⟨rfl, rfl, by decide, rfl,
   C7_next_due storeRec "t1" "t9" nowPlusEx taskRec (some "daily") rfl rfl
     (by decide) rfl⟩

/-- C9: the `NotRecurring` guard rejects exactly the string `"none"` and
the absent key; a present `null` recurring value − which is precisely
what the health scanner's orphaned-recurring auto-fix writes − passes the
guard, and at 100% progress the rollover succeeds with the successor due
immediately (`nowPlus 0`, the catch-all interval branch). -/
theorem C9_null_recurring (data : Store) (tid newId : String)
    (nowPlus : Nat → String) (t : Task)
    (hfind : find_task_by_id data.tasks tid = some t)
    (hrec : t.recurring = some none)
    (hp : t.progress.getD 0 = 100) :
    (∀ u : Task, recurGuardFails u = true ↔
       (u.recurring = some (some "none") ∨ u.recurring = none)) ∧
    recurGuardFails t = false ∧
    (∀ u : Task, recurringTruthy u.recurring → ¬ optStrTruthy u.goal_id →
       (hcCheck1 u).1.recurring = some none) ∧
    (∃ s, next_recurring data tid newId nowPlus = .ok s ∧
      ∃ succ, s.tasks.getLast? = some succ ∧
        succ.next_due_at = some (nowPlus 0 ++ "Z")) := by
  have hguard : recurGuardFails t = false := by
    simp [recurGuardFails, hrec]
  have hp' : ¬ t.progress.getD 0 < 100 := by omega
  refine ⟨?_, hguard, ?_, _,
          next_recurring_ok data tid newId nowPlus t hfind hguard hp',
          successorTask newId nowPlus (completeTask (nowPlus 0 ++ "Z") t), ?_, ?_⟩
  · intro u
    simp [recurGuardFails]
  · intro u h1 h2
    simp [hcCheck1, h1, h2]
  · show (updateFirstTask data.tasks tid (completeTask (nowPlus 0 ++ "Z"))
          ++ [successorTask newId nowPlus
               (completeTask (nowPlus 0 ++ "Z") t)]).getLast? = _
    rw [List.getLast?_concat]
  · show some (nowPlus (recurDeltaDays
        ((completeTask (nowPlus 0 ++ "Z") t).recurring.getD none)) ++ "Z") = _
    have h' : (completeTask (nowPlus 0 ++ "Z") t).recurring = some none := hrec
    rw [h']
    rfl

/-- A task in the shape the health scanner's fix 1 produces: recurring
present but `null`, at 100% progress. -/
def taskNullRec : Task :=
  { mkTask "t3" with
      recurring := some none
      status := "in_progress"
      progress := some 100 }

/-- Fixture store for the null-recurring task. -/
def storeNullRec : Store := ⟨[⟨"g1", "G", "high"⟩], [taskNullRec]⟩

/-- C9 witness: the theorem applied to the concrete null-recurring task. -/
theorem C9_witness :
    (find_task_by_id storeNullRec.tasks "t3" = some taskNullRec) ∧
    (taskNullRec.recurring = some none) ∧
    (taskNullRec.progress.getD 0 = 100) ∧
    ((∀ u : Task, recurGuardFails u = true ↔
        (u.recurring = some (some "none") ∨ u.recurring = none)) ∧
     recurGuardFails taskNullRec = false ∧
     (∀ u : Task, recurringTruthy u.recurring → ¬ optStrTruthy u.goal_id →
        (hcCheck1 u).1.recurring = some none) ∧
     (∃ s, next_recurring storeNullRec "t3" "t9" nowPlusEx = .ok s ∧
       ∃ succ, s.tasks.getLast? = some succ ∧
         succ.next_due_at = some (nowPlusEx 0 ++ "Z"))) :=
  ⟨rfl, rfl, rfl,
   C9_null_recurring storeNullRec "t3" "t9" nowPlusEx taskNullRec rfl rfl rfl⟩

/-! ## Claim C5: health-check idempotence -/

theorem healthTask_fst (now : String) (t : Task) :
    (healthTask now t).1 =
      (hcCheck5 now
        ((hcCheck4
          ((hcCheck3 now
            ((hcCheck2 ((hcCheck1 t).1)).1)).1)).1)).1 := rfl

theorem hcCheck4_fst (t : Task) : (hcCheck4 t).1 = t := by
  simp only [hcCheck4]; split <;> rfl

theorem hcCheck4_fixes (t : Task) : (hcCheck4 t).2.2 = [] := by
  simp only [hcCheck4]; split <;> rfl

theorem hcCheck2_status (t : Task) : ((hcCheck2 t).1).status = t.status := by
  simp only [hcCheck2]; split <;> rfl

theorem hcCheck3_status (now : String) (t : Task) :
    ((hcCheck3 now t).1).status = t.status := by
  simp only [hcCheck3]; split <;> rfl

theorem hcCheck5_status (now : String) (t : Task) :
    ((hcCheck5 now t).1).status = t.status := by
  simp only [hcCheck5]; split <;> rfl

theorem hcCheck2_recurring (t : Task) :
    ((hcCheck2 t).1).recurring = t.recurring := by
  simp only [hcCheck2]; split <;> rfl

theorem hcCheck3_recurring (now : String) (t : Task) :
    ((hcCheck3 now t).1).recurring = t.recurring := by
  simp only [hcCheck3]; split <;> rfl

theorem hcCheck5_recurring (now : String) (t : Task) :
    ((hcCheck5 now t).1).recurring = t.recurring := by
  simp only [hcCheck5]; split <;> rfl

theorem hcCheck2_goal_id (t : Task) :
    ((hcCheck2 t).1).goal_id = t.goal_id := by
  simp only [hcCheck2]; split <;> rfl

theorem hcCheck3_goal_id (now : String) (t : Task) :
    ((hcCheck3 now t).1).goal_id = t.goal_id := by
  simp only [hcCheck3]; split <;> rfl

theorem hcCheck5_goal_id (now : String) (t : Task) :
    ((hcCheck5 now t).1).goal_id = t.goal_id := by
  simp only [hcCheck5]; split <;> rfl

theorem hcCheck3_progress (now : String) (t : Task) :
    ((hcCheck3 now t).1).progress = t.progress := by
  simp only [hcCheck3]; split <;> rfl

theorem hcCheck5_progress (now : String) (t : Task) :
    ((hcCheck5 now t).1).progress = t.progress := by
  simp only [hcCheck5]; split <;> rfl

/-- After the scan, the orphaned-recurring condition cannot hold. -/
theorem healthTask_recurring_inv (now : String) (t : Task) :
    ¬ (recurringTruthy ((healthTask now t).1).recurring ∧
       ¬ optStrTruthy ((healthTask now t).1).goal_id) := by
  rw [healthTask_fst, hcCheck4_fst, hcCheck5_recurring, hcCheck3_recurring,
      hcCheck2_recurring, hcCheck5_goal_id, hcCheck3_goal_id, hcCheck2_goal_id]
  by_cases h1 : recurringTruthy t.recurring ∧ ¬ optStrTruthy t.goal_id
  · rw [show (hcCheck1 t).1 = { t with recurring := some none } from by
       simp only [hcCheck1]; rw [if_pos h1]]
    simp [recurringTruthy]
  · rw [show (hcCheck1 t).1 = t from by
       simp only [hcCheck1]; rw [if_neg h1]]
    exact h1

/-- After the scan, a completed task has progress at least 100. -/
theorem healthTask_progress_inv (now : String) (t : Task)
    (h : ((healthTask now t).1).status = "completed") :
    ¬ ((healthTask now t).1).progress.getD 100 < 100 := by
  rw [healthTask_fst, hcCheck4_fst] at h ⊢
  rw [hcCheck5_status, hcCheck3_status, hcCheck2_status] at h
  rw [hcCheck5_progress, hcCheck3_progress]
  generalize (hcCheck1 t).1 = x1 at h ⊢
  by_cases h2 : x1.status = "completed" ∧ x1.progress.getD 100 < 100
  · rw [show (hcCheck2 x1).1 = { x1 with progress := some 100 } from by
       simp only [hcCheck2]; rw [if_pos h2]]
    simp
  · rw [show (hcCheck2 x1).1 = x1 from by
       simp only [hcCheck2]; rw [if_neg h2]]
    exact fun hlt => h2 ⟨h, hlt⟩

/-- The completed-at shape after checks 3 and 5 on a completed task:
either the fresh stamp `now ++ "Z"`, or the original truthy value which
the check-5 comparison bounded by `now`. -/
theorem hcCheck5_completed_at (now : String) (t : Task) :
    ((hcCheck5 now t).1).completed_at = some (now ++ "Z") ∨
    ((hcCheck5 now t).1).completed_at = t.completed_at := by
  simp only [hcCheck5]; split
  · left; rfl
  · right; rfl

theorem hc35_completed_at (now : String) (u : Task)
    (h : u.status = "completed") :
    ((hcCheck5 now ((hcCheck3 now u).1)).1).completed_at = some (now ++ "Z") ∨
    (strFalsy ((hcCheck5 now ((hcCheck3 now u).1)).1).completed_at = false ∧
     ((hcCheck5 now ((hcCheck3 now u).1)).1).completed_at.getD "" ≤ now) := by
  by_cases h3 : u.status = "completed" ∧ strFalsy u.completed_at
  · rw [show (hcCheck3 now u).1 = { u with completed_at := some (now ++ "Z") }
        from by simp only [hcCheck3]; rw [if_pos h3]]
    rcases hcCheck5_completed_at now { u with completed_at := some (now ++ "Z") }
      with hc | hc
    · left; exact hc
    · left; rw [hc]
  · rw [show (hcCheck3 now u).1 = u from by
        simp only [hcCheck3]; rw [if_neg h3]]
    by_cases h5 : u.status = "completed" ∧ now < u.completed_at.getD ""
    · rw [show (hcCheck5 now u).1 = { u with completed_at := some (now ++ "Z") }
          from by simp only [hcCheck5]; rw [if_pos h5]]
      left; rfl
    · rw [show (hcCheck5 now u).1 = u from by
          simp only [hcCheck5]; rw [if_neg h5]]
      right
      refine ⟨?_, le_of_not_lt (fun hl => h5 ⟨h, hl⟩)⟩
      by_cases hsf : strFalsy u.completed_at = true
      · exact absurd ⟨h, hsf⟩ h3
      · simpa using hsf

/-- After the scan, a completed task's `completed_at` is the stamp of the
scan instant or a truthy value at most that instant. -/
theorem healthTask_completed_at_inv (now : String) (t : Task)
    (h : ((healthTask now t).1).status = "completed") :
    ((healthTask now t).1).completed_at = some (now ++ "Z") ∨
    (strFalsy ((healthTask now t).1).completed_at = false ∧
     ((healthTask now t).1).completed_at.getD "" ≤ now) := by
  rw [healthTask_fst, hcCheck4_fst] at h ⊢
  have hst : ((hcCheck2 ((hcCheck1 t).1)).1).status = "completed" := by
    rwa [hcCheck5_status, hcCheck3_status] at h
  exact hc35_completed_at now _ hst

/-- When none of the four fixable conditions holds, the per-task scan
applies no fix. -/
theorem healthTask_fixes_eq (now : String) (t : Task)
    (c1 : ¬ (recurringTruthy t.recurring ∧ ¬ optStrTruthy t.goal_id))
    (c2 : ¬ (t.status = "completed" ∧ t.progress.getD 100 < 100))
    (c3 : ¬ (t.status = "completed" ∧ strFalsy t.completed_at))
    (c5 : ¬ (t.status = "completed" ∧ now < t.completed_at.getD "")) :
    (healthTask now t).2.2 = [] := by
  have e1 : hcCheck1 t = (t, [], []) := by
    simp only [hcCheck1]; rw [if_neg c1]
  have e2 : hcCheck2 t = (t, [], []) := by
    simp only [hcCheck2]; rw [if_neg c2]
  have e3 : hcCheck3 now t = (t, [], []) := by
    simp only [hcCheck3]; rw [if_neg c3]
  have e5 : hcCheck5 now t = (t, [], []) := by
    simp only [hcCheck5]; rw [if_neg c5]
  simp [healthTask, e1, e2, e3, e5, hcCheck4_fst, hcCheck4_fixes]

/-- One task, scanned at `now1` and rescanned at a later instant `now2`:
the second scan applies no fix. -/
theorem healthTask_second (now1 now2 : String) (h1 : now1 ≤ now2)
    (h2 : now1 ++ "Z" ≤ now2) (t : Task) :
    (healthTask now2 ((healthTask now1 t).1)).2.2 = [] := by
  apply healthTask_fixes_eq
  · exact healthTask_recurring_inv now1 t
  · rintro ⟨ha, hb⟩
    exact healthTask_progress_inv now1 t ha hb
  · rintro ⟨ha, hb⟩
    rcases healthTask_completed_at_inv now1 t ha with hc | hc
    · rw [hc] at hb
      simp [strFalsy, optStrTruthy_appendZ] at hb
    · rw [hc.1] at hb
      exact Bool.false_ne_true hb
  · rintro ⟨ha, hb⟩
    rcases healthTask_completed_at_inv now1 t ha with hc | hc
    · rw [hc] at hb
      exact absurd hb (not_lt.mpr h2)
    · exact absurd hb (not_lt.mpr (le_trans hc.2 h1))

/-- C5: the health check is idempotent − a second run at any strictly
later instant (later even than the first run's `"Z"`-stamped writes, as
the source compares ISO strings lexicographically) applies zero fixes. -/
theorem C5_health_idempotent (s : Store) (now1 now2 : String)
    (h1 : now1 ≤ now2) (h2 : now1 ++ "Z" ≤ now2) :
    (health_check2 (health_check2 s now1).store now2).fixes = [] := by
  show (healthScan now2 ((healthScan now1 s.tasks).1)).2.2 = []
  induction s.tasks with
  | nil => rfl
  | cons t ts ih =>
      show (healthTask now2 ((healthTask now1 t).1)).2.2
           ++ (healthScan now2 ((healthScan now1 ts).1)).2.2 = []
      rw [healthTask_second now1 now2 h1 h2 t, ih]
      rfl

/-- The second instant used by the idempotence witness. -/
def now1 : String := "2026-01-02T00:00:00+00:00"

/-- C5 witness: two consecutive scans of the broken store, one calendar
day apart; the second scan's fix list is empty. -/
theorem C5_witness :
    (now0 ≤ now1) ∧ (now0 ++ "Z" ≤ now1) ∧
    (health_check2 (health_check2 storeBroken now0).store now1).fixes = [] ∧
    (health_check2 storeBroken now0).fixes ≠ [] :=
  ⟨by rw [String.le_iff_toList_le]; decide,
   by rw [String.le_iff_toList_le]; decide,
   C5_health_idempotent storeBroken now0 now1
     (by rw [String.le_iff_toList_le]; decide)
     (by rw [String.le_iff_toList_le]; decide),
   by decide⟩

/-! ## Claim C8: velocity report -/

theorem roundTo_zero (k : Nat) : roundTo k 0 = 0 := by
  norm_num [roundTo, roundHalfEven]

/-- C8: with the goal resolved, the report's counts are the
completed/remaining partition sizes, `days_tracked` is the number of
distinct `completed_at` date prefixes, velocity is
`completed / distinct-days` (0 with no day bucket) rounded to 2 places,
and the estimate is `remaining / velocity` (0 when velocity is not
positive) rounded to 1 place. -/
theorem C8_velocity (data : Store) (gid : String) (g : Goal)
    (hfind : find_goal_by_id data.goals gid = some g) :
    show_velocity data gid = .ok (velocityReport data gid) ∧
    ∀ completed remaining dayDates,
      completed = data.tasks.filter
        (fun t => t.goal_id == some gid && t.status == "completed") →
      remaining = data.tasks.filter
        (fun t => t.goal_id == some gid && t.status != "completed") →
      dayDates = ((completed.filterMap Task.completed_at).map dateOf).dedup →
      (velocityReport data gid).completed = completed.length ∧
      (velocityReport data gid).remaining = remaining.length ∧
      (velocityReport data gid).days_tracked = dayDates.length ∧
      (dayDates = [] →
        (velocityReport data gid).velocity_tasks_per_day = 0 ∧
        (velocityReport data gid).estimated_days_to_completion = 0) ∧
      (dayDates ≠ [] →
        (velocityReport data gid).velocity_tasks_per_day
          = roundTo 2 ((completed.length : ℚ) / (dayDates.length : ℚ)) ∧
        (0 < (completed.length : ℚ) / (dayDates.length : ℚ) →
          (velocityReport data gid).estimated_days_to_completion
            = roundTo 1 ((remaining.length : ℚ) /
                ((completed.length : ℚ) / (dayDates.length : ℚ)))) ∧
        (¬ 0 < (completed.length : ℚ) / (dayDates.length : ℚ) →
          (velocityReport data gid).estimated_days_to_completion = 0)) := by
  constructor
  · simp [show_velocity, hfind]
  · intro completed remaining dayDates hc hr hd
    have hkeys : (((data.tasks.filter
          (fun t => t.goal_id == some gid && t.status == "completed")).filterMap
            Task.completed_at).map dateOf).dedup = dayDates := by
      rw [hd, hc]
    refine ⟨by rw [hc]; rfl, by rw [hr]; rfl, by rw [← hkeys]; rfl, ?_, ?_⟩
    · intro hnil
      have hknil : ((data.tasks.filter
          (fun t => t.goal_id == some gid && t.status == "completed")).filterMap
            Task.completed_at).map dateOf = [] :=
        (List.dedup_eq_nil _).mp (hkeys.trans hnil)
      have hkn : ¬ (((data.tasks.filter
          (fun t => t.goal_id == some gid && t.status == "completed")).filterMap
            Task.completed_at).map dateOf ≠ []) := fun hh => hh hknil
      constructor
      · show roundTo 2 (if _ ≠ ([] : List String) then _ else (0 : ℚ)) = 0
        rw [if_neg hkn, roundTo_zero]
      · show roundTo 1 (if (0 : ℚ) <
            (if _ ≠ ([] : List String) then _ else (0 : ℚ)) then _ else (0 : ℚ)) = 0
        rw [if_neg hkn, if_neg (lt_irrefl (0 : ℚ)), roundTo_zero]
    · intro hne
      have hkne : ((data.tasks.filter
          (fun t => t.goal_id == some gid && t.status == "completed")).filterMap
            Task.completed_at).map dateOf ≠ [] := by
        intro hk
        exact hne (by rw [← hkeys, hk]; rfl)
      have hvel : (velocityReport data gid).velocity_tasks_per_day
          = roundTo 2 ((completed.length : ℚ) / (dayDates.length : ℚ)) := by
        show roundTo 2 (if _ ≠ ([] : List String) then _ else (0 : ℚ)) = _
        rw [if_pos hkne, hkeys, ← hc]
      refine ⟨hvel, fun hpos => ?_, fun hneg => ?_⟩
      · show roundTo 1 (if (0 : ℚ) <
            (if _ ≠ ([] : List String) then _ else (0 : ℚ)) then _ else (0 : ℚ)) = _
        rw [if_pos hkne]
        rw [if_pos (show (0 : ℚ) < _ by rw [hkeys, ← hc]; exact hpos)]
        rw [hkeys, ← hc, ← hr]
      · show roundTo 1 (if (0 : ℚ) <
            (if _ ≠ ([] : List String) then _ else (0 : ℚ)) then _ else (0 : ℚ)) = 0
        rw [if_pos hkne]
        rw [if_neg (show ¬ (0 : ℚ) < _ by rw [hkeys, ← hc]; exact hneg),
            roundTo_zero]

/-- A completed task of goal `g1` finished on the given calendar date. -/
def velTask (id date : String) : Task :=
  { mkTask id with
      status := "completed"
      progress := some 100
      completed_at := some (date ++ "T10:00:00+00:00Z") }

/-- Four completed tasks over two distinct dates plus two remaining. -/
def storeVel : Store :=
  ⟨[⟨"g1", "G", "high"⟩],
   [velTask "c1" "2026-01-01", velTask "c2" "2026-01-01",
    velTask "c3" "2026-01-02", velTask "c4" "2026-01-02",
    mkTask "r1", mkTask "r2"]⟩

/-- C8 witness: the theorem applied to the concrete store; the report is
4 completed, 2 remaining, 2 distinct days, velocity 2.0, estimate 1.0. -/
theorem C8_witness :
    (find_goal_by_id storeVel.goals "g1" = some ⟨"g1", "G", "high"⟩) ∧
    show_velocity storeVel "g1" = .ok (velocityReport storeVel "g1") ∧
    (velocityReport storeVel "g1").completed = 4 ∧
    (velocityReport storeVel "g1").remaining = 2 ∧
    (velocityReport storeVel "g1").days_tracked = 2 ∧
    (velocityReport storeVel "g1").velocity_tasks_per_day = 2 ∧
    (velocityReport storeVel "g1").estimated_days_to_completion = 1 := by
  have hlen1 : (storeVel.tasks.filter
      (fun t => t.goal_id == some "g1" && t.status == "completed")).length = 4 := by
    decide
  have hlen2 : ((((storeVel.tasks.filter
      (fun t => t.goal_id == some "g1" && t.status == "completed")).filterMap
        Task.completed_at).map dateOf).dedup).length = 2 := by decide
  have hlen3 : (storeVel.tasks.filter
      (fun t => t.goal_id == some "g1" && t.status != "completed")).length = 2 := by
    decide
  obtain ⟨_, _, _, _, hpos⟩ :=
    (C8_velocity storeVel "g1" ⟨"g1", "G", "high"⟩ rfl).2 _ _ _ rfl rfl rfl
  obtain ⟨hv, he, -⟩ := hpos (by decide)
  refine ⟨rfl, (C8_velocity storeVel "g1" ⟨"g1", "G", "high"⟩ rfl).1,
          by decide, by decide, by decide, ?_, ?_⟩
  · rw [hv, hlen1, hlen2]
    norm_num [roundTo, roundHalfEven]
  · rw [he (by rw [hlen1, hlen2]; norm_num), hlen1, hlen2, hlen3]
    norm_num [roundTo, roundHalfEven]

end TM
